import Mathlib

/-!
Verification of the task-filtering and statistics logic of the to-do
application (pages Home, TaskDetails, AddTask).  The code is embedded
shallowly: dayjs instants become a calendar-day index plus a time of day,
the implicit reads of the wall clock become explicit parameters, and the
React state updates become pure functions on the task list.  The repository
carries two near-duplicate implementations of the Home screen; both are
embedded, the current Home.tsx at top level and the unnamed duplicate in
the Variant namespace, so that the places where they disagree can be
exhibited.
-/

/-- A point in time at the granularity the code distinguishes: a calendar-day
index plus a time of day in seconds.  dayjs comparisons with unit day look
only at the day component. -/
structure Instant where
  day : Int
  tod : Nat
deriving DecidableEq

namespace Todo

/-- Priority levels of a task (the TaskPriority union type). -/
inductive TaskPriority where
  | Critical
  | High
  | Medium
  | Low
deriving DecidableEq

/-- The fields of the Task interface that the verified pages read or write.
Fields the pages treat as opaque (category, emoji, subtasks, ...) are
omitted; the code only passes them through. -/
structure Task where
  id : Nat
  name : String
  description : Option String
  color : String
  date : Instant
  deadline : Option Instant
  done : Bool
  pinned : Bool
  priority : Option TaskPriority
deriving DecidableEq

/-- dayjs isSame with unit day: both instants fall on the same calendar day. -/
def sameDay (a b : Instant) : Bool :=
  a.day == b.day

/-- dayjs isBetween with unit day and inclusivity both closed: the calendar
day of t lies in the inclusive range of the calendar days of a and b. -/
def betweenDayIncl (t a b : Instant) : Bool :=
  decide (a.day ≤ t.day) && decide (t.day ≤ b.day)

/-- The predicate of the Today branch of filteredTasks: the task has a
deadline on the given day (tasks without deadline yield false). -/
def onDay (today : Instant) (task : Task) : Bool :=
  match task.deadline with
  | some d => sameDay d today
  | none => false

/-- The predicate of the This Week and Custom branches of filteredTasks: the
task has a deadline inside the inclusive day range (tasks without deadline
yield false). -/
def inRange (a b : Instant) (task : Task) : Bool :=
  match task.deadline with
  | some d => betweenDayIncl d a b
  | none => false

/-- filteredTasks of Home.tsx.  The implicit globals, the start of today and
the end of the current week, are passed explicitly; the filter selection is
the string state of the component, any other string taking the default
branch; the two optional custom bounds are the date-picker states. -/
def filterTasks (today endOfWeek : Instant) (filter : String)
    (customStart customEnd : Option Instant) (tasks : List Task) : List Task :=
  match filter with
  | "Today" => tasks.filter (onDay today)
  | "This Week" => tasks.filter (inRange today endOfWeek)
  | "Custom" =>
    match customStart, customEnd with
    | some s, some e => tasks.filter (inRange s e)
    | _, _ => tasks
  | _ => tasks

/-- In the current Home.tsx, filter mode Custom with at least one bound
absent returns the full unfiltered task collection; the unnamed duplicate
of the screen disagrees here, see the Variant namespace below. -/
theorem custom_missing_bound_returns_all (today endOfWeek : Instant)
    (customStart customEnd : Option Instant) (tasks : List Task)
    (h : customStart = none ∨ customEnd = none) :
    filterTasks today endOfWeek "Custom" customStart customEnd tasks = tasks := by
  cases customStart <;> cases customEnd <;> simp_all [filterTasks]

/-- A sample task used to instantiate the claims at concrete inputs. -/
def sampleTask : Task :=
  { id := 1, name := "write report", description := none, color := "#1976d2",
    date := ⟨0, 0⟩, deadline := some ⟨0, 43200⟩, done := false,
    pinned := false, priority := none }

/-- Concrete instantiation of custom_missing_bound_returns_all: start bound
absent, the one-task collection comes back whole. -/
theorem custom_missing_bound_returns_all_spot :
    filterTasks ⟨0, 0⟩ ⟨6, 0⟩ "Custom" none (some ⟨3, 0⟩) [sampleTask]
      = [sampleTask] :=
  custom_missing_bound_returns_all ⟨0, 0⟩ ⟨6, 0⟩ none (some ⟨3, 0⟩)
    [sampleTask] (Or.inl rfl)

/-- Claim C6: filtering with mode All returns the input sequence unchanged,
in content and order. -/
theorem filter_all_identity (today endOfWeek : Instant)
    (customStart customEnd : Option Instant) (tasks : List Task) :
    filterTasks today endOfWeek "All" customStart customEnd tasks = tasks :=
  rfl

/-- Claim C7: a task without a deadline is excluded by the Today filter, the
This Week filter, and the Custom filter with both bounds supplied. -/
theorem no_deadline_excluded (today endOfWeek s e : Instant)
    (tasks : List Task) (t : Task) (h : t.deadline = none) :
    t ∉ filterTasks today endOfWeek "Today" none none tasks ∧
    t ∉ filterTasks today endOfWeek "This Week" none none tasks ∧
    t ∉ filterTasks today endOfWeek "Custom" (some s) (some e) tasks := by
  refine ⟨?_, ?_, ?_⟩ <;> intro hmem <;>
    simp [filterTasks, List.mem_filter, onDay, inRange, h] at hmem

/-- A task with no deadline, used to instantiate the deadline claims. -/
def noDeadlineTask : Task :=
  { id := 2, name := "no deadline", description := none, color := "#1976d2",
    date := ⟨0, 0⟩, deadline := none, done := false, pinned := false,
    priority := none }

/-- Concrete instantiation of no_deadline_excluded: a deadline-free task is
dropped by all three date filters. -/
theorem no_deadline_excluded_spot :
    noDeadlineTask ∉
      filterTasks ⟨0, 0⟩ ⟨6, 0⟩ "Today" none none [noDeadlineTask] ∧
    noDeadlineTask ∉
      filterTasks ⟨0, 0⟩ ⟨6, 0⟩ "This Week" none none [noDeadlineTask] ∧
    noDeadlineTask ∉
      filterTasks ⟨0, 0⟩ ⟨6, 0⟩ "Custom" (some ⟨0, 0⟩) (some ⟨3, 0⟩)
        [noDeadlineTask] :=
  no_deadline_excluded ⟨0, 0⟩ ⟨6, 0⟩ ⟨0, 0⟩ ⟨3, 0⟩ _ _ rfl

/-- Claim C8: range membership is boundary inclusive at day granularity.
First part: This Week keeps a task whose deadline day equals the start day
or the end day of the week range.  Second part: Custom with both bounds
keeps a task whose deadline day equals the start day or the end day.  Third
part: with a degenerate custom range over one day, a collection in which
exactly one task has its deadline on that day filters to exactly that
task. -/
theorem filter_boundary_inclusive :
    (∀ (today endOfWeek : Instant) (tasks : List Task) (t : Task)
      (d : Instant), t ∈ tasks → t.deadline = some d →
      today.day ≤ endOfWeek.day → (d.day = today.day ∨ d.day = endOfWeek.day) →
      t ∈ filterTasks today endOfWeek "This Week" none none tasks) ∧
    (∀ (today endOfWeek s e : Instant) (tasks : List Task) (t : Task)
      (d : Instant), t ∈ tasks → t.deadline = some d →
      s.day ≤ e.day → (d.day = s.day ∨ d.day = e.day) →
      t ∈ filterTasks today endOfWeek "Custom" (some s) (some e) tasks) ∧
    (∀ (today endOfWeek d1 : Instant) (pre post : List Task) (t : Task),
      inRange d1 d1 t = true →
      (∀ u ∈ pre, inRange d1 d1 u = false) →
      (∀ u ∈ post, inRange d1 d1 u = false) →
      filterTasks today endOfWeek "Custom" (some d1) (some d1)
        (pre ++ t :: post) = [t]) := by
  refine ⟨?_, ?_, ?_⟩
  · intro today endOfWeek tasks t d hmem hd hle hday
    have hpred : inRange today endOfWeek t = true := by
      rcases hday with h | h <;> simp [inRange, hd, betweenDayIncl, h] <;> omega
    simpa [filterTasks, List.mem_filter] using ⟨hmem, hpred⟩
  · intro today endOfWeek s e tasks t d hmem hd hle hday
    have hpred : inRange s e t = true := by
      rcases hday with h | h <;> simp [inRange, hd, betweenDayIncl, h] <;> omega
    simpa [filterTasks, List.mem_filter] using ⟨hmem, hpred⟩
  · intro today endOfWeek d1 pre post t hpt hpre hpost
    have hpre0 : pre.filter (inRange d1 d1) = [] :=
      List.filter_eq_nil_iff.mpr (fun u hu => by simp [hpre u hu])
    have hpost0 : post.filter (inRange d1 d1) = [] :=
      List.filter_eq_nil_iff.mpr (fun u hu => by simp [hpost u hu])
    show (pre ++ t :: post).filter (inRange d1 d1) = [t]
    rw [List.filter_append, hpre0, List.filter_cons, if_pos hpt, hpost0]
    rfl

/-- A task whose deadline falls on day five, for the boundary claims. -/
def dayFiveTask : Task :=
  { id := 3, name := "boundary", description := none, color := "#1976d2",
    date := ⟨0, 0⟩, deadline := some ⟨5, 7200⟩, done := false,
    pinned := false, priority := none }

/-- Concrete instantiation of filter_boundary_inclusive: a degenerate custom
range on day five keeps exactly the one task with a deadline that day. -/
theorem filter_boundary_inclusive_spot :
    filterTasks ⟨0, 0⟩ ⟨6, 0⟩ "Custom" (some ⟨5, 0⟩) (some ⟨5, 0⟩)
      [noDeadlineTask, dayFiveTask] = [dayFiveTask] :=
  filter_boundary_inclusive.2.2 ⟨0, 0⟩ ⟨6, 0⟩ ⟨5, 0⟩ [noDeadlineTask] []
    dayFiveTask (by decide) (by decide) (by decide)

/-- completedCount of taskStats in Home.tsx. -/
def completedCount (tasks : List Task) : Nat :=
  (tasks.filter (fun task => task.done)).length

/-- completedPercentage of taskStats in Home.tsx; exact rational arithmetic
stands for the JS number arithmetic, which it agrees with on the claims
proved here. -/
def completedPercentage (tasks : List Task) : ℚ :=
  if 0 < tasks.length then
    ((completedCount tasks : ℚ) / (tasks.length : ℚ)) * 100
  else 0

/-- dueTodayTasks of taskStats in Home.tsx: deadline present and on the
current day, and the task not done. -/
def dueTodayTasks (today : Instant) (tasks : List Task) : List Task :=
  tasks.filter (fun task => onDay today task && !task.done)

/-- The snapshot object returned by the taskStats memo. -/
structure TaskStats where
  completedTasksCount : Nat
  completedTaskPercentage : ℚ
  tasksWithDeadlineTodayCount : Nat
  tasksDueTodayNames : List String
deriving DecidableEq

/-- taskStats of Home.tsx, with today passed explicitly. -/
def taskStats (today : Instant) (tasks : List Task) : TaskStats :=
  { completedTasksCount := completedCount tasks,
    completedTaskPercentage := completedPercentage tasks,
    tasksWithDeadlineTodayCount := (dueTodayTasks today tasks).length,
    tasksDueTodayNames := (dueTodayTasks today tasks).map
      (fun task => task.name) }

/-- Claim C4: the completed percentage is count over total times one hundred,
is zero on an empty collection with no division performed, and is one
hundred on a non-empty all-done collection. -/
theorem completedPercentage_spec :
    (∀ tasks : List Task, 0 < tasks.length →
      completedPercentage tasks
        = ((completedCount tasks : ℚ) / (tasks.length : ℚ)) * 100) ∧
    (∀ tasks : List Task, tasks.length = 0 → completedPercentage tasks = 0) ∧
    (∀ tasks : List Task, tasks ≠ [] → (∀ t ∈ tasks, t.done = true) →
      completedPercentage tasks = 100) := by
  refine ⟨?_, ?_, ?_⟩
  · intro tasks h
    simp [completedPercentage, h]
  · intro tasks h
    simp [completedPercentage, h]
  · intro tasks hne hall
    have hlen : 0 < tasks.length := List.length_pos.mpr hne
    have hcc : completedCount tasks = tasks.length := by
      unfold completedCount
      rw [List.filter_eq_self.mpr hall]
    have hnz : (tasks.length : ℚ) ≠ 0 := by
      exact_mod_cast Nat.pos_iff_ne_zero.mp hlen
    rw [completedPercentage, if_pos hlen, hcc, div_self hnz, one_mul]

/-- A completed task, for the statistics claims. -/
def doneTask : Task :=
  { id := 4, name := "done", description := none, color := "#1976d2",
    date := ⟨0, 0⟩, deadline := some ⟨0, 3600⟩, done := true,
    pinned := false, priority := none }

/-- Concrete instantiation of completedPercentage_spec: a single completed
task gives one hundred percent. -/
theorem completedPercentage_spec_spot : completedPercentage [doneTask] = 100 :=
  completedPercentage_spec.2.2 [doneTask] (by decide) (by decide)

/-- Claim C5: membership in dueTodayTasks is exactly: drawn from the
collection, not done, and holding a deadline on the current day. -/
theorem dueToday_membership (today : Instant) (tasks : List Task) (t : Task) :
    t ∈ dueTodayTasks today tasks ↔
      t ∈ tasks ∧ t.done = false ∧
        ∃ d, t.deadline = some d ∧ sameDay d today = true := by
  cases hd : t.deadline with
  | none => simp [dueTodayTasks, List.mem_filter, onDay, hd]
  | some d =>
    simp only [dueTodayTasks, List.mem_filter, onDay, hd, Bool.and_eq_true,
      Bool.not_eq_true', Option.some.injEq]
    constructor
    · rintro ⟨hmem, hsame, hdone⟩
      exact ⟨hmem, hdone, d, rfl, hsame⟩
    · rintro ⟨hmem, hdone, d2, rfl, hsame⟩
      exact ⟨hmem, hsame, hdone⟩

/-- taskCompletionText of Home.tsx as a function of the two values the memo
reads: the completed percentage and the total task count. -/
def taskCompletionText (percentage : ℚ) (totalTasks : Nat) : String :=
  if totalTasks = 0 then "Add your first task to get started!"
  else if percentage = 100 then "🎉 Amazing! All tasks completed!"
  else if 75 ≤ percentage then "🚀 Almost there! Just a few more to go!"
  else if 50 ≤ percentage then "💪 You’re halfway there! Keep it up!"
  else if 25 ≤ percentage then "👍 You’re making good progress!"
  else "🎯 You’re just getting started. You’ve got this!"

/-- In the current Home.tsx the completion-message tiers fire in the fixed
priority order, a zero task count dominating every percentage, and the
percentages 74 and 75 at a positive count land in different tiers; the
unnamed duplicate of the screen disagrees on the tier structure, see the
Variant namespace below. -/
theorem completionMessage_tiers :
    (∀ p : ℚ, taskCompletionText p 0
      = "Add your first task to get started!") ∧
    (∀ (p : ℚ) (n : Nat), n ≠ 0 → p = 100 →
      taskCompletionText p n = "🎉 Amazing! All tasks completed!") ∧
    (∀ (p : ℚ) (n : Nat), n ≠ 0 → p ≠ 100 → 75 ≤ p →
      taskCompletionText p n = "🚀 Almost there! Just a few more to go!") ∧
    (∀ (p : ℚ) (n : Nat), n ≠ 0 → p < 75 → 50 ≤ p →
      taskCompletionText p n = "💪 You’re halfway there! Keep it up!") ∧
    (∀ (p : ℚ) (n : Nat), n ≠ 0 → p < 50 → 25 ≤ p →
      taskCompletionText p n = "👍 You’re making good progress!") ∧
    (∀ (p : ℚ) (n : Nat), n ≠ 0 → p < 25 →
      taskCompletionText p n
        = "🎯 You’re just getting started. You’ve got this!") ∧
    taskCompletionText 74 10 ≠ taskCompletionText 75 10 := by
  refine ⟨?_, ?_, ?_, ?_, ?_, ?_, ?_⟩
  · intro p
    simp [taskCompletionText]
  · intro p n hn hp
    rw [taskCompletionText, if_neg hn, if_pos hp]
  · intro p n hn hp h75
    rw [taskCompletionText, if_neg hn, if_neg hp, if_pos h75]
  · intro p n hn h75 h50
    rw [taskCompletionText, if_neg hn, if_neg (by rintro rfl; linarith),
      if_neg (not_le.mpr h75), if_pos h50]
  · intro p n hn h50 h25
    rw [taskCompletionText, if_neg hn, if_neg (by rintro rfl; linarith),
      if_neg (by linarith), if_neg (not_le.mpr h50), if_pos h25]
  · intro p n hn h25
    rw [taskCompletionText, if_neg hn, if_neg (by rintro rfl; linarith),
      if_neg (by linarith), if_neg (by linarith), if_neg (not_le.mpr h25)]
  · have h74 : taskCompletionText 74 10
        = "💪 You’re halfway there! Keep it up!" := by
      rw [taskCompletionText, if_neg (by norm_num), if_neg (by norm_num),
        if_neg (by norm_num), if_pos (by norm_num)]
    have h75 : taskCompletionText 75 10
        = "🚀 Almost there! Just a few more to go!" := by
      rw [taskCompletionText, if_neg (by norm_num), if_neg (by norm_num),
        if_pos (by norm_num)]
    rw [h74, h75]
    decide

/-- Concrete instantiation of completionMessage_tiers: eighty percent over
four tasks lands in the almost-there tier. -/
theorem completionMessage_tiers_spot :
    taskCompletionText 80 4 = "🚀 Almost there! Just a few more to go!" :=
  completionMessage_tiers.2.2.1 80 4 (by norm_num) (by norm_num) (by norm_num)

/-- timeGreeting of Home.tsx as a function of the current local hour. -/
def timeGreeting (currentHour : Nat) : String :=
  if 5 ≤ currentHour ∧ currentHour < 12 then "Good morning"
  else if 12 ≤ currentHour ∧ currentHour < 17 then "Good afternoon"
  else if 17 ≤ currentHour ∧ currentHour < 21 then "Good evening"
  else "Good night"

/-- In the current Home.tsx, over the hours zero to twenty-three the
greeting tiers are exactly the four stated non-overlapping ranges, and the
pairs of hours four and five, and eleven and twelve, land in different
tiers; the unnamed duplicate of the screen has only three tiers, see the
Variant namespace below. -/
theorem timeGreeting_tiers :
    (∀ h : Nat, h < 24 →
      (timeGreeting h = "Good morning" ↔ 5 ≤ h ∧ h < 12) ∧
      (timeGreeting h = "Good afternoon" ↔ 12 ≤ h ∧ h < 17) ∧
      (timeGreeting h = "Good evening" ↔ 17 ≤ h ∧ h < 21) ∧
      (timeGreeting h = "Good night" ↔ h < 5 ∨ 21 ≤ h)) ∧
    timeGreeting 4 ≠ timeGreeting 5 ∧ timeGreeting 11 ≠ timeGreeting 12 := by
  decide

/-- Concrete instantiation of timeGreeting_tiers: eight in the morning is
greeted as morning. -/
theorem timeGreeting_tiers_spot : timeGreeting 8 = "Good morning" :=
  ((timeGreeting_tiers.1 8 (by decide)).1).mpr (by decide)

/-- One row of PRIORITY_CONFIG in TaskDetails.tsx. -/
structure PriorityStyle where
  color : String
  emoji : String
  textColor : String
deriving DecidableEq

/-- PRIORITY_CONFIG of TaskDetails.tsx. -/
def PRIORITY_CONFIG : TaskPriority → PriorityStyle
  | .Critical => ⟨"#f44336", "🔴", "#fff"⟩
  | .High => ⟨"#ff9800", "🟡", "#000"⟩
  | .Medium => ⟨"#9c27b0", "🟣", "#fff"⟩
  | .Low => ⟨"#4caf50", "🟢", "#fff"⟩

/-- The display name of a priority, as the union-type value reads. -/
def priorityName : TaskPriority → String
  | .Critical => "Critical"
  | .High => "High"
  | .Medium => "Medium"
  | .Low => "Low"

/-- priorityConfig of TaskDetails.tsx: the config row at the task priority,
an absent priority falling back to Medium. -/
def priorityConfig (task : Task) : PriorityStyle :=
  PRIORITY_CONFIG (task.priority.getD TaskPriority.Medium)

/-- The priority chip label of TaskDetails.tsx: the config emoji followed by
the priority name, an absent priority falling back to Medium. -/
def priorityChipLabel (task : Task) : String :=
  (priorityConfig task).emoji ++ " "
    ++ priorityName (task.priority.getD TaskPriority.Medium)

/-- Claim C9: a task without a priority is displayed with the Medium
configuration and the label of the Medium tier. -/
theorem missing_priority_defaults_to_medium (task : Task)
    (h : task.priority = none) :
    priorityConfig task = PRIORITY_CONFIG TaskPriority.Medium ∧
    priorityChipLabel task = "🟣 Medium" := by
  have h1 : priorityConfig task = PRIORITY_CONFIG TaskPriority.Medium := by
    simp [priorityConfig, h]
  refine ⟨h1, ?_⟩
  rw [priorityChipLabel, h1, h]
  decide

/-- Concrete instantiation of missing_priority_defaults_to_medium on the
sample task, whose priority field is absent. -/
theorem missing_priority_defaults_to_medium_spot :
    priorityConfig sampleTask = PRIORITY_CONFIG TaskPriority.Medium ∧
    priorityChipLabel sampleTask = "🟣 Medium" :=
  missing_priority_defaults_to_medium sampleTask rfl

/-- JS String.prototype.trim, written on the character list of the string
so that it evaluates by kernel reduction: whitespace is dropped from both
ends. -/
def jsTrim (s : String) : String :=
  ⟨((s.data.dropWhile Char.isWhitespace).reverse.dropWhile
    Char.isWhitespace).reverse⟩

/-- The form state of the AddTask dialog: the name and description text
fields, the chosen deadline day (none when the date input is the empty
string), and the selected priority. -/
structure AddTaskForm where
  name : String
  description : String
  deadlineDay : Option Int
  priority : TaskPriority
deriving DecidableEq

/-- Comparison of two instants, as comparing two JS Date values. -/
def instantBefore (a b : Instant) : Bool :=
  decide (a.day < b.day) || (a.day == b.day && decide (a.tod < b.tod))

/-- validateForm of AddTask.tsx, keeping only the boolean outcome (the
error-message state writes are display only).  The chosen date parses to
midnight of its day and today is normalised to midnight by setHours. -/
def validateForm (todayDay : Int) (form : AddTaskForm) : Bool :=
  if jsTrim form.name = "" then false
  else if 100 < (jsTrim form.name).length then false
  else if 500 < form.description.length then false
  else
    match form.deadlineDay with
    | some d => !instantBefore ⟨d, 0⟩ ⟨todayDay, 0⟩
    | none => true

/-- The time of day 23:59:59 in seconds. -/
def endOfDaySeconds : Nat := 23 * 3600 + 59 * 60 + 59

/-- The instant 23:59:59 of a calendar day, as parsing the chosen date with
the suffix T23:59:59 does. -/
def deadlineAt2359 (d : Int) : Instant := ⟨d, endOfDaySeconds⟩

/-- The task object handleAddTask builds from a valid form: a fresh id, the
trimmed name, the trimmed description with empty collapsing to absent, the
creation instant, the deadline at 23:59:59 of the chosen day when a day was
chosen, and fresh done and pinned flags. -/
def builtTask (form : AddTaskForm) (newId : Nat) (now : Instant) : Task :=
  { id := newId, name := jsTrim form.name,
    description :=
      if jsTrim form.description = "" then none else some (jsTrim form.description),
    color := "#1976d2", date := now,
    deadline := form.deadlineDay.map deadlineAt2359,
    done := false, pinned := false, priority := some form.priority }

/-- handleAddTask of AddTask.tsx acting on the task list of the user: a
failing validation returns early leaving the list unchanged, otherwise the
built task is appended. -/
def handleAddTask (todayDay : Int) (form : AddTaskForm) (newId : Nat)
    (now : Instant) (tasks : List Task) : List Task :=
  if validateForm todayDay form then tasks ++ [builtTask form newId now]
  else tasks

/-- The validation fails exactly on the four conditions the code checks:
empty trimmed name, trimmed name over one hundred characters, description
over five hundred characters, or a chosen deadline day strictly before
today. -/
theorem validateForm_false_iff (todayDay : Int) (form : AddTaskForm) :
    validateForm todayDay form = false ↔
      jsTrim form.name = "" ∨ 100 < (jsTrim form.name).length ∨
      500 < form.description.length ∨
      ∃ d, form.deadlineDay = some d ∧ d < todayDay := by
  constructor
  · intro hfalse
    by_cases h1 : jsTrim form.name = ""
    · exact Or.inl h1
    by_cases h2 : 100 < (jsTrim form.name).length
    · exact Or.inr (Or.inl h2)
    by_cases h3 : 500 < form.description.length
    · exact Or.inr (Or.inr (Or.inl h3))
    cases hd : form.deadlineDay with
    | none => simp [validateForm, h1, h2, h3, hd] at hfalse
    | some d =>
      refine Or.inr (Or.inr (Or.inr ⟨d, rfl, ?_⟩))
      simp [validateForm, h1, h2, h3, hd, instantBefore] at hfalse
      omega
  · intro h
    rcases h with h | h | h | ⟨d, hd, hlt⟩
    · simp [validateForm, h]
    · unfold validateForm
      by_cases h1 : jsTrim form.name = "" <;> simp [h1, h]
    · unfold validateForm
      by_cases h1 : jsTrim form.name = "" <;>
        by_cases h2 : 100 < (jsTrim form.name).length <;> simp [h1, h2, h]
    · unfold validateForm
      by_cases h1 : jsTrim form.name = "" <;>
        by_cases h2 : 100 < (jsTrim form.name).length <;>
          by_cases h3 : 500 < form.description.length <;>
            simp [h1, h2, h3, hd, instantBefore, hlt]

/-- Claim C10: task creation is atomic with respect to validation.  A form
failing any of the four checks leaves the task list unchanged; a form
passing all of them appends exactly the built task, which is not done, not
pinned, and carries the chosen day at 23:59:59 as deadline when a day was
chosen. -/
theorem addTask_atomic_validation :
    (∀ (todayDay : Int) (form : AddTaskForm) (newId : Nat) (now : Instant)
      (tasks : List Task),
      (jsTrim form.name = "" ∨ 100 < (jsTrim form.name).length ∨
        500 < form.description.length ∨
        (∃ d, form.deadlineDay = some d ∧ d < todayDay)) →
      handleAddTask todayDay form newId now tasks = tasks) ∧
    (∀ (todayDay : Int) (form : AddTaskForm) (newId : Nat) (now : Instant)
      (tasks : List Task),
      jsTrim form.name ≠ "" → (jsTrim form.name).length ≤ 100 →
      form.description.length ≤ 500 →
      (∀ d, form.deadlineDay = some d → todayDay ≤ d) →
      handleAddTask todayDay form newId now tasks
          = tasks ++ [builtTask form newId now] ∧
        (builtTask form newId now).done = false ∧
        (builtTask form newId now).pinned = false ∧
        (builtTask form newId now).deadline
          = form.deadlineDay.map deadlineAt2359) := by
  constructor
  · intro todayDay form newId now tasks h
    have hv : validateForm todayDay form = false :=
      (validateForm_false_iff todayDay form).mpr h
    simp [handleAddTask, hv]
  · intro todayDay form newId now tasks hname hlen hdesc hdl
    have hv : validateForm todayDay form = true := by
      cases hvf : validateForm todayDay form with
      | true => rfl
      | false =>
        rcases (validateForm_false_iff todayDay form).mp hvf with
          h | h | h | ⟨d, hd, hlt⟩
        · exact absurd h hname
        · exact absurd h (by omega)
        · exact absurd h (by omega)
        · exact absurd (hdl d hd) (by omega)
    exact ⟨by simp [handleAddTask, hv], rfl, rfl, rfl⟩

/-- A form passing every validation check, with a chosen deadline day. -/
def validForm : AddTaskForm :=
  { name := "  buy milk  ", description := " weekly errand ",
    deadlineDay := some 5, priority := TaskPriority.High }

/-- Concrete instantiation of addTask_atomic_validation: the valid form
appends exactly one fresh task to a one-task list. -/
theorem addTask_atomic_validation_spot :
    handleAddTask 3 validForm 9 ⟨3, 100⟩ [sampleTask]
        = [sampleTask] ++ [builtTask validForm 9 ⟨3, 100⟩] ∧
      (builtTask validForm 9 ⟨3, 100⟩).done = false ∧
      (builtTask validForm 9 ⟨3, 100⟩).pinned = false ∧
      (builtTask validForm 9 ⟨3, 100⟩).deadline
        = validForm.deadlineDay.map deadlineAt2359 :=
  addTask_atomic_validation.2 3 validForm 9 ⟨3, 100⟩ [sampleTask]
    (by decide) (by decide) (by decide)
    (fun d hd => by simp [validForm] at hd; omega)

namespace Variant

/-- filteredTasks of the unnamed near-duplicate Home screen source: the
same three date branches as the current screen, except that Custom with a
missing bound returns the empty list instead of the full collection. -/
def filteredTasks (today endOfWeek : Instant) (filter : String)
    (customStart customEnd : Option Instant) (tasks : List Task) :
    List Task :=
  match filter with
  | "Today" => tasks.filter (onDay today)
  | "This Week" => tasks.filter (inRange today endOfWeek)
  | "Custom" =>
    match customStart, customEnd with
    | some s, some e => tasks.filter (inRange s e)
    | _, _ => []
  | _ => tasks

/-- taskCompletionText of the unnamed near-duplicate Home screen source: it
never reads the task count and keys its first tier on a zero percentage. -/
def taskCompletionText (percentage : ℚ) : String :=
  if percentage = 0 then "No tasks completed yet. Keep going!"
  else if percentage = 100 then "Congratulations! All tasks completed!"
  else if 75 ≤ percentage then "Almost there!"
  else if 50 ≤ percentage then "You’re halfway there! Keep it up!"
  else if 25 ≤ percentage then "You’re making good progress."
  else "You’re just getting started."

/-- timeGreeting of the unnamed near-duplicate Home screen source: three
tiers only, the afternoon reaching up to hour eighteen and every remaining
hour answered as evening. -/
def timeGreeting (currentHour : Nat) : String :=
  if 5 ≤ currentHour ∧ currentHour < 12 then "Good morning"
  else if 12 ≤ currentHour ∧ currentHour < 18 then "Good afternoon"
  else "Good evening"

end Variant

/-- Claim C1: the claim holds of the current Home.tsx but the unnamed
duplicate of the screen contradicts it, returning the empty list for a
Custom filter with a missing start bound on a non-empty collection, where
the current screen and the spec return the full unfiltered collection. -/
theorem variant_custom_missing_bound_returns_empty :
    Variant.filteredTasks ⟨0, 0⟩ ⟨6, 0⟩ "Custom" none (some ⟨3, 0⟩)
        [sampleTask] = [] ∧
    filterTasks ⟨0, 0⟩ ⟨6, 0⟩ "Custom" none (some ⟨3, 0⟩)
        [sampleTask] = [sampleTask] :=
  ⟨rfl, rfl⟩

/-- Claim C2: the claim holds of the current Home.tsx but the unnamed
duplicate of the screen contradicts it: its first tier is keyed on a zero
percentage and the task count is never read, so percentage zero over ten
tasks answers the zero-completed message where the claimed tier order
lands in the just-getting-started tier. -/
theorem variant_completion_zero_percent_mismatch :
    Variant.taskCompletionText 0 = "No tasks completed yet. Keep going!" ∧
    taskCompletionText 0 10
      = "🎯 You’re just getting started. You’ve got this!" ∧
    Variant.taskCompletionText 0 ≠ taskCompletionText 0 10 := by
  decide

/-- Claim C3: the claim holds of the current Home.tsx but the unnamed
duplicate of the screen contradicts it: with three tiers and the afternoon
reaching hour eighteen, hour seventeen lands in afternoon and hour
twenty-two in evening, where the claimed partition sends them to evening
and night. -/
theorem variant_greeting_three_tiers :
    Variant.timeGreeting 17 = "Good afternoon" ∧
    Variant.timeGreeting 22 = "Good evening" ∧
    timeGreeting 17 = "Good evening" ∧
    timeGreeting 22 = "Good night" := by
  decide

end Todo
